import Mathlib

/-!
Verification development for the coverage-model persistence core.

Shallow embedding of:
- src/ion_functions/qc_functions.py (dataqc_spiketest, dataqc_stuckvaluetest, isvector)
- src/coverage_model/persistence.py (PersistedStorage slice calculus, getitem, shape,
  PersistenceLayer.expand_domain)
- src/coverage_model/brick_dispatch.py (BaseBrickWriterDispatcher organizer, provisioner,
  receiver, failure accounting)
- src/coverage_model/parameter_functions.py (argument binding in NumexprFunction.evaluate
  and PythonFunction.evaluate)

Machine floats of the source are modelled by exact rationals; every concrete input used
below keeps all comparisons far from representation ties, so the branch decisions of the
rational model coincide with the float execution.
-/

deriving instance DecidableEq for Except

namespace CoverageModel

/-! ## Python numeric primitives -/

/-- Python int() truncation toward zero of a rational value. -/
def pyTrunc (q : ℚ) : ℤ :=
  if q < 0 then -((-q).floor) else q.floor

/-- numpy ceil of the absolute value is built from Rat.floor. -/
def ratCeil (q : ℚ) : ℤ :=
  -((-q).floor)

/-- numpy round: round half to even (banker rounding), as np.round does. -/
def roundHalfEven (q : ℚ) : ℤ :=
  let f := q.floor
  let r := q - (f : ℚ)
  if r < 1/2 then f
  else if 1/2 < r then f + 1
  else if f % 2 = 0 then f else f + 1

/-- the list of integers a, a+1, ..., b-1 (Python xrange(a, b)). -/
def intRange (a b : ℤ) : List ℤ :=
  (List.range (b - a).toNat).map (fun i => a + (i : ℤ))

/-- Python list/array slicing xs[a:b] for non-negative bounds: clamps to the list,
    empty when b is not beyond a.  All slice bounds reached in the embedded code are
    non-negative. -/
def pySlice (xs : List α) (a b : ℤ) : List α :=
  (xs.drop a.toNat).take (b - a.toNat).toNat

/-- the number of elements of Python range(s, e, st) (CPython range length formula). -/
def rangeLen (s e st : ℤ) : ℤ :=
  if 0 < st then max 0 ((e - s + st - 1) / st)
  else if st < 0 then max 0 ((s - e + (-st) - 1) / (-st))
  else 0

/-- CPython slice.indices(length): resolve optional start, stop, step against a length.
    A zero step raises in Python and is never produced by the embedded code. -/
def pySliceIndices (start stop step : Option ℤ) (length : ℤ) : ℤ × ℤ × ℤ :=
  let st := step.getD 1
  let lower : ℤ := if st < 0 then -1 else 0
  let upper : ℤ := if st < 0 then length - 1 else length
  let s := match start with
    | none => if st < 0 then upper else lower
    | some v => if v < 0 then max (v + length) lower else min v upper
  let e := match stop with
    | none => if st < 0 then lower else upper
    | some v => if v < 0 then max (v + length) lower else min v upper
  (s, e, st)

/-! ## QC functions (src/ion_functions/qc_functions.py) -/

/-- element of a rational list at a non-negative integer index. -/
def datAt (dat : List ℚ) (i : ℤ) : ℚ :=
  dat.getD i.toNat 0

/-- maximum of a list (numpy .max over the slices taken here, which are non-empty). -/
def listMax (l : List ℚ) : ℚ :=
  l.foldl max (l.headD 0)

/-- minimum of a list. -/
def listMin (l : List ℚ) : ℚ :=
  l.foldl min (l.headD 0)

/-- sum of a list. -/
def listSum (l : List ℚ) : ℚ :=
  l.foldl (· + ·) 0

/-- numpy .mean of a list. -/
def listMean (l : List ℚ) : ℚ :=
  listSum l / (l.length : ℚ)

/-- numpy size of an array with the given shape: the product of the axis lengths
    (a scalar has shape [] and size 1). -/
def npSize (shape : List ℕ) : ℕ :=
  shape.prod

/-- qc_functions.isvector: np.asanyarray(dat).size > 1.  Any array with more than one
    element counts as a vector, whatever its number of dimensions. -/
def isvector (shape : List ℕ) : Bool :=
  1 < npSize shape

/-- validation errors of the QC functions.  The isnumeric / isreal / isscalar checks of
    the source cannot fire for rational-typed data and scalars, so the only reachable
    error of the embedded validation sequence is the isvector rejection. -/
inductive QcErr where
  | mustBeVector : QcErr
deriving DecidableEq, Repr

/-- the repeated per-window body of dataqc_spiketest: range of the peers, lifted to the
    accuracy, compared against the deviation from the peer mean (qc_functions.py
    lines 450-453, 457-460, 464-467). -/
def spikeCheck (dat : List ℚ) (acc N : ℚ) (tmpdat : List ℚ) (ii : ℤ) (out : List ℤ) :
    List ℤ :=
  let R := listMax tmpdat - listMin tmpdat
  let R2 := max R acc
  if N * R2 > |datAt dat ii - listMean tmpdat| then out.set ii.toNat 1 else out

/-- qc_functions.dataqc_spiketest on a 1-d input (its documented domain: dat is a real
    numeric vector).  Mirrors lines 410-473: validation, window normalisation of L,
    and the three windowed loops, including the literal slice bounds dat[:ii] and
    dat[ii:L] of the third loop. -/
def dataqc_spiketest (dat : List ℚ) (acc N L : ℚ) : Except QcErr (List ℤ) :=
  if ¬ 1 < dat.length then .error .mustBeVector
  else
    let La : ℚ := (ratCeil |L| : ℚ)
    let Lb : ℚ := if La / 2 = (roundHalfEven (La / 2) : ℚ) then La + 1 else La
    let Lc : ℚ := if Lb < 3 then 5 else Lb
    let ll : ℤ := dat.length
    let out0 : List ℤ := List.replicate dat.length 0
    let L2 : ℤ := pyTrunc ((Lc - 1) / 2)
    let i1 : ℤ := 1 + L2
    let i2 : ℤ := ll - L2
    if (ll : ℚ) ≥ Lc then
      let out1 := (intRange (i1 - 1) i2).foldl (fun out ii =>
        spikeCheck dat acc N
          (pySlice dat (ii - L2) ii ++ pySlice dat (ii + 1) (ii + 1 + L2)) ii out) out0
      let out2 := (intRange 0 L2).foldl (fun out ii =>
        spikeCheck dat acc N
          (pySlice dat 0 ii ++ pySlice dat (ii + 1) (pyTrunc Lc)) ii out) out1
      let out3 := (intRange (ll - L2) ll).foldl (fun out ii =>
        spikeCheck dat acc N
          (pySlice dat 0 ii ++ pySlice dat ii (pyTrunc Lc)) ii out) out2
      .ok out3
    else
      .ok out0

/-- qc_functions.dataqc_stuckvaluetest on a 1-d input (lines 566-603): validation,
    absolute value of num, then the sliding all-within-resolution window zeroing the
    window slice of the output. -/
def dataqc_stuckvaluetest (x : List ℚ) (reso num : ℚ) : Except QcErr (List ℤ) :=
  if ¬ 1 < x.length then .error .mustBeVector
  else
    let numA : ℚ := |num|
    let ll : ℤ := x.length
    let out0 : List ℤ := List.replicate x.length 0
    if (ll : ℚ) < numA then .ok out0
    else
      let out1 : List ℤ := List.replicate x.length 1
      let iimax : ℤ := pyTrunc ((ll : ℚ) - numA + 1)
      let outF := (intRange 0 iimax).foldl (fun out ii =>
        let tmp := (pySlice x ii (ii + pyTrunc numA)).map (fun v => |datAt x ii - v|)
        if tmp.all (fun t => t < reso) then
          (intRange ii (ii + pyTrunc numA)).foldl (fun o j => o.set j.toNat 0) out
        else out) out1
      .ok outF

/-! ## PersistedStorage slice calculus (src/coverage_model/persistence.py) -/

/-- one axis of a user selection: a plain index, an index list, or a Python slice with
    optional start, stop, step.  The same shape also carries the per-axis brick and
    value sub-selections computed by _calc_slices. -/
inductive SliceElem where
  | idx (n : ℤ)
  | lst (l : List ℤ)
  | slc (start stop step : Option ℤ)
deriving DecidableEq, Repr

/-- errors raised by _calc_slices (persistence.py lines 563, 567, 580, 590); the
    constructors mirror the four ValueError messages. -/
inductive CalcErr where
  | idxNotInBrick
  | listNotInBrick
  | startBeyondBrick
  | stopBeforeBrick
deriving DecidableEq, Repr

/-- the per-axis body of PersistedStorage._calc_slices (persistence.py lines 550-604):
    given the selection element, the brick origin bo and nominal size bs for this axis,
    the value-array cursor vo and optional value-array extent vs, produce the brick
    sub-selection, the value sub-selection and the advanced cursor. -/
def calcSliceAxis (sl : SliceElem) (bo bs vo : ℤ) (vs : Option ℤ) :
    Except CalcErr (SliceElem × SliceElem × ℤ) :=
  let bn := bo + bs
  match sl with
  | .idx n =>
    if bo ≤ n ∧ n < bn then .ok (.idx (n - bo), .idx (0 + vo), vo + 1)
    else .error .idxNotInBrick
  | .lst l =>
    let lb := (l.filter (fun x => decide (bo ≤ x ∧ x < bn))).map (fun x => x - bo)
    if lb.length = 0 then .error .listNotInBrick
    else .ok (.lst lb, .slc (some vo) (some (vo + lb.length)) none, (lb.length : ℤ) + vo)
  | .slc st sp step =>
    let startR : Except CalcErr ℤ :=
      match st with
      | none => .ok 0
      | some v =>
        if bo ≤ v ∧ v < bn then .ok (v - bo)
        else if bo > v then .ok 0
        else .error .startBeyondBrick
    match startR with
    | .error e => .error e
    | .ok start =>
      let stopR : Except CalcErr ℤ :=
        match sp with
        | none => .ok bs
        | some v =>
          if bo ≤ v ∧ v < bn then .ok (v - bo)
          else if v > bn then .ok bs
          else .error .stopBeforeBrick
      match stopR with
      | .error e => .error e
      | .ok stop =>
        let nbs : SliceElem := .slc (some start) (some stop) step
        let r := pySliceIndices (some start) (some stop) step stop
        let nbsl := rangeLen r.1 r.2.1 r.2.2
        let vstp := vo + nbsl
        let vstp2 := match vs with
          | some v => if vstp > v then v else vstp
          | none => vstp
        .ok (nbs, .slc (some vo) (some vstp2) none, vo + nbsl)

/-- a brick of a rank-1 parameter: grid origin, nominal size, and the contents of its
    backing dataset. -/
structure Brick1 where
  origin : ℤ
  size : ℤ
  data : List ℚ
deriving DecidableEq, Repr

/-- upper bound of the rtree over all bricks (max of origin + size - 1); the default -1
    makes the derived maxes 0 for an empty index. -/
def treeUpper (bricks : List Brick1) : ℤ :=
  (bricks.map (fun b => b.origin + b.size - 1)).foldl max (-1)

/-- lower bound of the rtree over all bricks. -/
def treeLower (bricks : List Brick1) : ℤ :=
  (bricks.map (fun b => b.origin)).foldl min 0

/-- one axis of PersistedStorage._get_array_shape_from_slice (persistence.py lines
    621-627): 1 for an index, the length for a list, and len(range(*s.indices(maxes[i])))
    for a slice, where maxes[i] is the rtree upper bound of that axis plus one. -/
def shapeAxis (s : SliceElem) (maxi : ℤ) : ℤ :=
  match s with
  | .idx _ => 1
  | .lst l => l.length
  | .slc a b k =>
    let r := pySliceIndices a b k maxi
    rangeLen r.1 r.2.1 r.2.2

/-- Modelled from the spec: shape-of-selection of one axis, with the count of selected
    indices of a range axis taken within the parameter domain extent (1 for an integer
    axis, the list length for a list axis). -/
def specShapeAxis (s : SliceElem) (extent : ℤ) : ℤ :=
  match s with
  | .idx _ => 1
  | .lst l => l.length
  | .slc a b k => rangeLen (a.getD 0) (b.getD extent) (k.getD 1)

/-- interval intersection test of the rtree: inclusive bounding intervals. -/
def intersects (lo hi blo bhi : ℤ) : Bool :=
  decide (lo ≤ bhi ∧ blo ≤ hi)

/-- PersistedStorage._bricks_from_slice for a rank-1 selection (persistence.py lines
    421-452): derive the query interval from the selection (open slice ends fall back to
    the rtree bounds) and keep every brick whose bounding interval intersects it. -/
def bricksFromSlice1 (bricks : List Brick1) (sl : SliceElem) : List Brick1 :=
  let startEnd : ℤ × ℤ :=
    match sl with
    | .slc a b _ => (a.getD (treeLower bricks), b.getD (treeUpper bricks))
    | .lst l => ((l.foldl min (l.headD 0)), (l.foldl max (l.headD 0)))
    | .idx n => (n, n)
  bricks.filter (fun br =>
    intersects startEnd.1 startEnd.2 br.origin (br.origin + br.size - 1))

/-- h5py dataset read ds[brick_slice] on a rank-1 dataset. -/
def extractSlice (data : List ℚ) (bsl : SliceElem) : List ℚ :=
  match bsl with
  | .idx n => [data.getD n.toNat 0]
  | .lst l => l.map (fun i => data.getD i.toNat 0)
  | .slc a b k =>
    let r := pySliceIndices a b k data.length
    (intRange 0 (rangeLen r.1 r.2.1 r.2.2)).map (fun j => data.getD (r.1 + j * r.2.2).toNat 0)

/-- numpy assignment ret_arr[value_slice] = vals on a rank-1 array; _calc_slices only
    produces index or contiguous-slice value selections. -/
def assignSlice (arr : List ℚ) (vsl : SliceElem) (vals : List ℚ) : List ℚ :=
  match vsl with
  | .idx n => arr.set n.toNat (vals.headD 0)
  | .slc a b _ =>
    let s := a.getD 0
    let e := b.getD arr.length
    (List.range arr.length).map (fun (i : ℕ) =>
      if s ≤ (i : ℤ) ∧ (i : ℤ) < e then vals.getD (i - s.toNat) 0 else arr.getD i 0)
  | .lst _ => arr

/-- PersistedStorage.__getitem__ for a rank-1 parameter (persistence.py lines 454-489):
    compute the result shape from the selection, allocate the result buffer and fill it
    with the literal -1 (np.empty followed by ret_arr.fill(-1), line 462), then for each
    intersecting brick compute the brick and value sub-selections with the shared cursor
    and assign the brick data into the buffer. -/
def getitem1 (bricks : List Brick1) (sl : SliceElem) : Except CalcErr (List ℚ) :=
  let maxes := treeUpper bricks + 1
  let shp := shapeAxis sl maxes
  let init : List ℚ := List.replicate shp.toNat (-1)
  let res := (bricksFromSlice1 bricks sl).foldl
    (fun (st : Except CalcErr (List ℚ × ℤ)) br =>
      match st with
      | .error e => .error e
      | .ok (ret, vo) =>
        match calcSliceAxis sl br.origin br.size vo (some shp) with
        | .error e => .error e
        | .ok (bsl, vsl, vo2) => .ok (assignSlice ret vsl (extractSlice br.data bsl), vo2))
    (.ok (init, 0))
  match res with
  | .error e => .error e
  | .ok (ret, _) => .ok ret

/-- a brick as PersistenceLayer.write_brick creates it: h5py create_dataset is called
    without a fill value (persistence.py line 230), and HDF5 zero-fills numeric datasets
    at creation, so a fresh brick of nominal size 6 holds six zeros. -/
def brickAtCreation : Brick1 :=
  ⟨0, 6, List.replicate 6 0⟩

/-- the two bricks allocated for the spec scenario S6 configuration: total temporal
    extent 10 with brick extent 6, both in their creation state. -/
def s6bricks : List Brick1 :=
  [⟨0, 6, List.replicate 6 0⟩, ⟨6, 6, List.replicate 6 0⟩]

/-! ## PersistenceLayer.expand_domain (src/coverage_model/persistence.py lines 275-325) -/

/-- error raised by expand_domain: the only check in the source is the SystemError on a
    change of the number of dimensions (persistence.py line 285). -/
inductive ExpandErr where
  | dimensionChange
deriving DecidableEq, Repr

/-- Python range(d)[::b] for a positive stride b: the multiples of b below d. -/
def multiplesBelow (d b : ℤ) : List ℤ :=
  (intRange 0 (rangeLen 0 d b)).map (fun i => i * b)

/-- itertools.product over per-axis origin lists, first axis varying slowest. -/
def cartProd : List (List ℤ) → List (List ℤ)
  | [] => [[]]
  | l :: rest => (l.map (fun x => (cartProd rest).map (fun t => x :: t))).flatten

/-- brick extents of calculate_extents (persistence.py line 180): per-axis inclusive
    (origin, origin + size - 1) pairs. -/
def brickExtents (origin bD : List ℤ) : List (ℤ × ℤ) :=
  (origin.zip bD).map (fun p => (p.1, p.1 + p.2 - 1))

/-- the per-axis origin grid of expand_domain (persistence.py line 306):
    lst = [range(d)[::bD[i]] for i, d in enumerate(tD)]. -/
def originGrid (tD bD : List ℤ) : List (List ℤ) :=
  (tD.zip bD).map (fun p => multiplesBelow p.1 p.2)

/-- result of a successful expand_domain: the stored total extent afterwards and the
    origins of the bricks newly written. -/
structure ExpandResult where
  newExtents : List ℤ
  createdOrigins : List (List ℤ)
deriving DecidableEq, Repr

/-- PersistenceLayer.expand_domain (persistence.py lines 275-325) for a parameter whose
    domain entry already exists: the only validation is that the number of dimensions is
    unchanged; the stored extent tD is then replaced by the new total extent (tD plus the
    delta equals the new extent), and write_brick is invoked for every origin of the
    brick grid of the new extent, skipping origins whose brick extents already exist
    (_brick_exists, lines 189-200). -/
def expandDomain (prevExtents : List ℤ) (bD : List ℤ) (newTotal : List ℤ)
    (existing : List (List (ℤ × ℤ))) : Except ExpandErr ExpandResult :=
  if newTotal.length ≠ prevExtents.length then .error .dimensionChange
  else
    let tD := newTotal
    let vertices := cartProd (originGrid tD bD)
    let created := vertices.filter (fun o => ¬ existing.contains (brickExtents o bD))
    .ok ⟨tD, created⟩

/-! ## Brick-write dispatcher (src/coverage_model/brick_dispatch.py)

The dictionaries of BaseBrickWriterDispatcher are modelled as association lists without
duplicate-key ambiguity: insertion places the key in front after erasing it, erasure
removes it, so lookups behave exactly like Python dict access. -/

/-- dict lookup. -/
def alookup [DecidableEq κ] : List (κ × α) → κ → Option α
  | [], _ => none
  | (k1, v) :: rest, k => if k1 = k then some v else alookup rest k

/-- dict erase (del / pop). -/
def aerase [DecidableEq κ] : List (κ × α) → κ → List (κ × α)
  | [], _ => []
  | (k1, v1) :: rest, k => if k1 = k then aerase rest k else (k1, v1) :: aerase rest k

/-- dict assignment d[k] = v. -/
def ainsert [DecidableEq κ] (l : List (κ × α)) (k : κ) (v : α) : List (κ × α) :=
  (k, v) :: aerase l k

/-- an opaque unit of brick-write work: a (sub-selection list, buffer) pair. -/
abbrev WorkUnit := ℕ

/-- opaque brick metrics (file path, brick extent, chunk extent, dtype, fill value). -/
abbrev Metrics := ℕ

/-- brick keys. -/
abbrev Key := String

/-- the work argument of put_work: either a single unit (a Python tuple) or a list of
    units; the organizer branches on isinstance(w, list). -/
inductive Work where
  | one (u : WorkUnit)
  | many (l : List WorkUnit)
deriving DecidableEq, Repr

/-- the units carried by a work argument (append for a single unit, extend for a list,
    as in brick_dispatch.py lines 177-180 and 209-212). -/
def workToList : Work → List WorkUnit
  | .one u => [u]
  | .many l => l

/-- Python len of the submitted work object: a single unit is a (selections, buffer)
    pair of length 2, so only an empty list has length 0 (line 163). -/
def workLen : Work → ℕ
  | .one _ => 2
  | .many l => l.length

/-- a msgpack-packed byte string.  packb of the (key, metrics, work) tuple is
    deterministic and injective; packb applied to an already-packed byte string yields a
    strictly longer byte string, never equal to its input nor to the packing of any
    tuple; the two constructors keep these encodings distinct. -/
inductive Packed where
  | tup (k : Key) (wm : Metrics) (w : List WorkUnit)
  | bytes (p : Packed)
deriving DecidableEq, Repr

/-- pack(wp) of the provisioner on a (key, metrics, work) tuple (line 253). -/
def packTup (k : Key) (wm : Metrics) (w : List WorkUnit) : Packed :=
  .tup k wm w

/-- pack applied by _add_failure to the already-packed work (line 317). -/
def packBytes (p : Packed) : Packed :=
  .bytes p

/-- WORK_FAILURE_RETRIES (brick_dispatch.py line 30). -/
def WORK_FAILURE_RETRIES : ℕ := 4

/-- the mutable state of BaseBrickWriterDispatcher: _pending_work, _stashed_work,
    _active_work, _failures and the work_queue of keys. -/
structure DispState where
  pending : List (Key × Metrics × List WorkUnit)
  stashed : List (Key × Metrics × List WorkUnit)
  active : List (Key × String × Packed)
  failures : List (Packed × ℕ)
  workQueue : List Key
deriving DecidableEq, Repr

/-- the empty dispatcher state. -/
def disp0 : DispState :=
  ⟨[], [], [], [], []⟩

/-- one iteration of _work_organizer on a (key, metrics, work) item popped from the prep
    queue (brick_dispatch.py lines 160-216): discard empty work with no stash; stash
    while the key is active; otherwise prepend any stash, enter pending, and publish the
    key to the work queue when it was not yet pending. -/
def organizerStep (s : DispState) (k : Key) (wm : Metrics) (w : Work) : DispState :=
  if (alookup s.stashed k).isNone ∧ workLen w = 0 then s
  else if (alookup s.active k).isSome then
    let cur := (alookup s.stashed k).getD (wm, [])
    { s with stashed := ainsert s.stashed k (cur.1, cur.2 ++ workToList w) }
  else
    let flush := alookup s.stashed k
    let w2 := match flush with
      | some pr => pr.2 ++ workToList w
      | none => workToList w
    let stashed2 := match flush with
      | some _ => aerase s.stashed k
      | none => s.stashed
    let notInPend := (alookup s.pending k).isNone
    let pending2 :=
      if notInPend then ainsert s.pending k (wm, w2)
      else
        let cur := (alookup s.pending k).getD (wm, [])
        ainsert s.pending k (cur.1, cur.2 ++ w2)
    { s with stashed := stashed2, pending := pending2,
             workQueue := if notInPend then s.workQueue ++ [k] else s.workQueue }

/-- one iteration of _work_provisioner serving a worker request (lines 232-256): pop a
    key from the work queue, move its pending work into the active map together with the
    worker id, and send the packed work. -/
def provisionStep (s : DispState) (workerGuid : String) : DispState × Option Packed :=
  match s.workQueue with
  | [] => (s, none)
  | k :: rest =>
    match alookup s.pending k with
    | none => ({ s with workQueue := rest }, none)
    | some pr =>
      let pw := packTup k pr.1 pr.2
      ({ s with workQueue := rest,
                pending := aerase s.pending k,
                active := ainsert s.active k (workerGuid, pw) }, some pw)

/-- _add_failure (lines 316-325): pack the already-packed work again, increment the
    counter stored under that doubly-packed key, and report whether the ValueError
    for exceeding WORK_FAILURE_RETRIES was raised. -/
def addFailure (failures : List (Packed × ℕ)) (wp : Packed) : List (Packed × ℕ) × Bool :=
  let pwp := packBytes wp
  let cnt := (alookup failures pwp).getD 0 + 1
  (ainsert failures pwp cnt, decide (cnt > WORK_FAILURE_RETRIES))

/-- the SUCCESS branch of _work_result_receiver (lines 277-281): pop the active entry
    and pop the failure counter if the singly-packed work is a key of _failures. -/
def successStep (s : DispState) (k : Key) : DispState :=
  match alookup s.active k with
  | none => s
  | some pr =>
    let s2 := { s with active := aerase s.active k }
    match alookup s2.failures pr.2 with
    | some _ => { s2 with failures := aerase s2.failures pr.2 }
    | none => s2

/-- outcome of the FAILURE branch: the failure callback firing (work dropped) or a
    re-enqueue of the returned remaining work through put_work. -/
inductive FailOutcome where
  | noActive
  | dropped (pw : Packed)
  | reenqueued (k : Key) (wm : Metrics) (w : List WorkUnit)
deriving DecidableEq, Repr

/-- the FAILURE branch of _work_result_receiver with a known key (lines 302-311): pop
    the active entry, account the failure; when the retry bound is exceeded invoke the
    failure callback and drop, otherwise put the returned remaining work back with the
    metrics recovered from the packed work. -/
def failureStep (s : DispState) (k : Key) (returnedWork : List WorkUnit) :
    DispState × FailOutcome :=
  match alookup s.active k with
  | none => (s, .noActive)
  | some pr =>
    let s2 := { s with active := aerase s.active k }
    let acc := addFailure s2.failures pr.2
    let s3 := { s2 with failures := acc.1 }
    if acc.2 then (s3, .dropped pr.2)
    else
      match pr.2 with
      | .tup _ wm _ => (s3, .reenqueued k wm returnedWork)
      | .bytes _ => (s3, .reenqueued k 0 returnedWork)

/-- the work units stashed for a key (empty when no stash exists). -/
def stashedList (s : DispState) (k : Key) : List WorkUnit :=
  ((alookup s.stashed k).map (fun pr => pr.2)).getD []

/-- the work units pending for a key (empty when no pending entry exists). -/
def pendingList (s : DispState) (k : Key) : List WorkUnit :=
  ((alookup s.pending k).map (fun pr => pr.2)).getD []

/-- submit one item and let the provisioner dispatch it to a worker. -/
def putThenDispatch (s : DispState) (k : Key) (wm : Metrics) (w : Work)
    (workerGuid : String) : DispState :=
  (provisionStep (organizerStep s k wm w) workerGuid).1

/-- one always-failing worker round for a single-key scenario: report FAILURE with the
    same remaining work, then (when re-enqueued rather than dropped) let the organizer
    and provisioner put the same work back in flight. -/
def failCycle (s : DispState) (k : Key) (workerGuid : String) (u : WorkUnit) :
    DispState × FailOutcome :=
  match failureStep s k [u] with
  | (s2, .reenqueued k2 wm2 w2) =>
    ((provisionStep (organizerStep s2 k2 wm2 (.many w2)) workerGuid).1,
      .reenqueued k2 wm2 w2)
  | (s2, o) => (s2, o)

/-- iterate failCycle, collecting the outcomes in order. -/
def failCycles (s : DispState) (k : Key) (workerGuid : String) (u : WorkUnit) :
    ℕ → DispState × List FailOutcome
  | 0 => (s, [])
  | n + 1 =>
    let r := failCycle s k workerGuid u
    let rest := failCycles r.1 k workerGuid u n
    (rest.1, r.2 :: rest.2)

/-! ## Parameter-function argument binding (src/coverage_model/parameter_functions.py) -/

/-- a parameter value: a scalar or an array. -/
inductive Val where
  | int (n : ℤ)
  | arr (l : List ℤ)
deriving DecidableEq, Repr

/-- the second argument handed to the parameter value callback: either the selection
    passed to evaluate, or the literal -1 index selecting only the last element. -/
inductive SelArg where
  | sel (s : ℤ)
  | lastElem
deriving DecidableEq, Repr

/-- one entry of the resolved argument map: a nested function (identified opaquely, its
    recursive evaluation supplied by subEval), a numeric literal, a numeric list
    literal, or a parameter name string. -/
inductive ArgVal where
  | fnArg (f : ℕ)
  | num (x : ℤ)
  | numList (l : List ℤ)
  | pname (p : String)
deriving DecidableEq, Repr

/-- AbstractFunction._apply_mapping (parameter_functions.py lines 34-47): each formal
    argument maps to param_map[k] when present, else to the argument name itself, which
    downstream is treated as a parameter name. -/
def applyMapping (argList : List String) (paramMap : List (String × ArgVal)) :
    List (String × ArgVal) :=
  argList.map (fun a => (a, (alookup paramMap a).getD (.pname a)))

/-- Python k.endswith of a single star: the last character of the name is a star. -/
def endsWithStar (k : String) : Bool :=
  k.data.getLast? = some ('*')

/-- Python k[:-1]: the name with its last character removed. -/
def dropStar (k : String) : String :=
  ⟨k.data.dropLast⟩

/-- the local-dict construction loop of NumexprFunction.evaluate (parameter_functions.py
    lines 210-222): nested functions are evaluated recursively over the same selection,
    numeric literals pass through, and a parameter name is substituted via the callback;
    a formal name ending in a star binds, under the name with the star stripped, the
    callback value at the literal -1 index instead of the selection. -/
def numexprBindings (subEval : ℕ → Val) (cb : String → SelArg → Val)
    (argList : List String) (paramMap : List (String × ArgVal)) (sl : ℤ) :
    List (String × Val) :=
  (applyMapping argList paramMap).map (fun kv =>
    match kv.2 with
    | .fnArg f => (kv.1, subEval f)
    | .num x => (kv.1, .int x)
    | .numList l => (kv.1, .arr l)
    | .pname p =>
      if endsWithStar kv.1 then (dropStar kv.1, cb p .lastElem)
      else (kv.1, cb p (.sel sl)))

/-- a positional argument assembled by PythonFunction.evaluate: either a value, or the
    closure lambda arg: pval_callback(arg, slice_) installed for the formal name
    pv_callback (line 173), represented by the captured selection. -/
inductive PyArg where
  | val (v : Val)
  | cbClosure (sl : ℤ)
deriving DecidableEq, Repr

/-- the positional-argument loop of PythonFunction.evaluate (parameter_functions.py
    lines 163-177): nested functions recurse over the same selection, numeric literals
    pass through; the formal name pv_callback receives the callback closure; any other
    parameter name is substituted via the callback, at the literal -1 index when the
    formal name ends in a star, else over the selection. -/
def pythonArgs (subEval : ℕ → Val) (cb : String → SelArg → Val)
    (argList : List String) (paramMap : List (String × ArgVal)) (sl : ℤ) : List PyArg :=
  (applyMapping argList paramMap).map (fun kv =>
    match kv.2 with
    | .fnArg f => .val (subEval f)
    | .num x => .val (.int x)
    | .numList l => .val (.arr l)
    | .pname p =>
      if kv.1 = ("pv_callback") then .cbClosure sl
      else
        let slarg := if endsWithStar kv.1 then SelArg.lastElem else SelArg.sel sl
        .val (cb p slarg))

/-! ## Helper lemmas -/

/-- looking a key up right after inserting it yields the inserted value. -/
theorem alookup_ainsert_self [DecidableEq κ] (l : List (κ × α)) (k : κ) (v : α) :
    alookup (ainsert l k v) k = some v := by
  simp [ainsert, alookup]

/-- erasing a key removes every binding of it. -/
theorem alookup_aerase_self [DecidableEq κ] (l : List (κ × α)) (k : κ) :
    alookup (aerase l k) k = none := by
  induction l with
  | nil => rfl
  | cons p rest ih =>
    obtain ⟨k1, v1⟩ := p
    by_cases h : k1 = k
    · simpa [aerase, h] using ih
    · simpa [aerase, alookup, h] using ih

/-- a work argument of Python length 0 carries no units. -/
theorem workToList_eq_nil (w : Work) (h : workLen w = 0) : workToList w = [] := by
  cases w with
  | one u => simp [workLen] at h
  | many l => simpa [workLen, workToList, List.length_eq_zero] using h

/-! ## Claim theorems -/

/-- C7: dataqc_spiketest on dat = [-1,3,40,-1,1,-6,-6,1] with accuracy 0.1, window L = 5
    and multiplier N = 5 returns the flag vector [1,1,0,1,1,1,1,1]: only the value 40 is
    detected as a spike. -/
theorem C7_spiketest_s2 :
    dataqc_spiketest [-1, 3, 40, -1, 1, -6, -6, 1] (1/10) 5 5 =
      .ok [1, 1, 0, 1, 1, 1, 1, 1] := by
  with_unfolding_all decide

/-- C3: the range-axis slice calculator raises at the brick end: for a brick with
    origin 0 and nominal size 6, a stop equal to the brick end 6 raises the ValueError
    of the bo > sl.stop branch instead of yielding local stop 6, and a start equal to
    the brick end raises instead of being allowed only for start > 6; a strictly
    interior range [1:4) behaves as the claim states (local start 1, local stop 4,
    buffer range [0,3)). -/
theorem C3_brick_end_raises :
    calcSliceAxis (.slc (some 1) (some 6) none) 0 6 0 none = .error .stopBeforeBrick
    ∧ calcSliceAxis (.slc (some 6) none none) 0 6 0 none = .error .startBeyondBrick
    ∧ calcSliceAxis (.slc (some 1) (some 4) none) 0 6 0 none =
        .ok (.slc (some 1) (some 4) none, .slc (some 0) (some 3) none, 3) := by
  decide

/-- C2: on the S6 configuration (total temporal extent 10, brick extent 6, bricks
    [0,6) and [6,12) in creation state) the full-domain selection slice(None) yields a
    result of 12 elements: the shape computation uses the rtree nominal brick bounds
    (11 + 1), not the domain extent, while the shape-of-selection of the spec counts 10
    selected indices. -/
theorem C2_shape_uses_nominal_brick_bounds :
    getitem1 s6bricks (.slc none none none) = .ok (List.replicate 12 (0 : ℚ))
    ∧ shapeAxis (.slc none none none) (treeUpper s6bricks + 1) = 12
    ∧ specShapeAxis (.slc none none none) 10 = 10 := by
  with_unfolding_all decide

/-- C1 (counterexample): for a parameter with fill value -9999 (the fill value of the
    repository test fixture), reading [0:3) of a freshly created brick returns
    [0, 0, 0] - the creation contents of the brick dataset - and not a buffer of the
    fill value, refuting that get returns a buffer full of the fill value before any
    write. -/
theorem C1_fill_value_counterexample :
    getitem1 [brickAtCreation] (.slc (some 0) (some 3) none) = .ok [0, 0, 0]
    ∧ ([0, 0, 0] : List ℚ) ≠ List.replicate 3 (-9999 : ℚ) := by
  with_unfolding_all decide

/-- C1 (amended): get allocates its result buffer pre-filled with the hard-coded
    constant -1, independent of the parameter fill value: a selection whose brick query
    returns no bricks comes back as a buffer of -1 entries, and brick-covered cells are
    read from the brick datasets (zeros at creation), as the concrete read of a fresh
    brick shows. -/
theorem C1_get_prefills_minus_one :
    (∀ (bricks : List Brick1) (sl : SliceElem),
        bricksFromSlice1 bricks sl = [] →
        getitem1 bricks sl =
          .ok (List.replicate (shapeAxis sl (treeUpper bricks + 1)).toNat (-1 : ℚ)))
    ∧ getitem1 [brickAtCreation] (.slc (some 2) (some 5) none) = .ok [0, 0, 0] := by
  constructor
  · intro bricks sl h
    simp [getitem1, h]
  · with_unfolding_all decide

/-- witness for C1_get_prefills_minus_one at the empty brick list. -/
theorem C1_get_prefills_minus_one_witness :
    getitem1 [] (.slc (some 0) (some 3) none) =
      .ok (List.replicate
        (shapeAxis (.slc (some 0) (some 3) none) (treeUpper [] + 1)).toNat (-1 : ℚ)) :=
  C1_get_prefills_minus_one.1 [] (.slc (some 0) (some 3) none) (by decide)

/-- C4 (counterexample): expand_domain performs no DomainShrink and no
    NonTemporalChange validation: shrinking the temporal extent from (10,) to (5,)
    succeeds and stores the smaller extent, and changing the non-temporal extent from
    (10,4) to (10,8) succeeds and allocates the bricks of the changed grid. -/
theorem C4_no_shrink_check_counterexample :
    expandDomain [10] [6] [5] [[(0, 5)], [(6, 11)]] = .ok ⟨[5], []⟩
    ∧ expandDomain [10, 4] [6, 4] [10, 8] [[(0, 5), (0, 3)], [(6, 11), (0, 3)]] =
        .ok ⟨[10, 8], [[0, 4], [6, 4]]⟩ := by
  decide

/-- C4 (amended): expand_domain fails exactly when the number of axes changes; with the
    rank unchanged it unconditionally replaces the stored total extent by the new one
    (shrinks and non-temporal changes included) and writes a brick for every origin of
    the brick grid of the new extent whose extents are not already present. -/
theorem C4_expand_only_checks_rank :
    ∀ (prev bD newTotal : List ℤ) (existing : List (List (ℤ × ℤ))),
      ((∃ e, expandDomain prev bD newTotal existing = .error e) ↔
          newTotal.length ≠ prev.length)
      ∧ (newTotal.length = prev.length →
          expandDomain prev bD newTotal existing =
            .ok ⟨newTotal, (cartProd (originGrid newTotal bD)).filter
                (fun o => ¬ existing.contains (brickExtents o bD))⟩) := by
  intro prev bD newTotal existing
  refine ⟨⟨?_, ?_⟩, ?_⟩
  · rintro ⟨e, he⟩
    by_contra h
    simp [expandDomain, h] at he
  · intro h
    exact ⟨.dimensionChange, by simp [expandDomain, h]⟩
  · intro h
    simp [expandDomain, h]

/-- witness for C4_expand_only_checks_rank at a rank-preserving shrink. -/
theorem C4_expand_only_checks_rank_witness :
    expandDomain [10] [6] [5] [] =
      .ok ⟨[5], (cartProd (originGrid [5] [6])).filter
          (fun o => ¬ ([] : List (List (ℤ × ℤ))).contains (brickExtents o [6]))⟩ :=
  (C4_expand_only_checks_rank [10] [6] [5] []).2 (by decide)

/-- C5: for a work item whose worker always fails returning the same remaining work,
    the dispatcher re-enqueues after each of the first 4 failures and invokes the
    failure callback exactly once on the 5th, dropping the work and continuing to accept
    new work - but a success does NOT clear the failure counter: _add_failure keys the
    counter by pack(packed_work) while the SUCCESS branch looks up the singly-packed
    work, so after one failure and a subsequent success the counter entry remains. -/
theorem C5_success_leaves_failure_counter :
    (failCycles (putThenDispatch disp0 ("a") 7 (.many [3]) ("w1")) ("a") ("w1") 3 5).2 =
      [.reenqueued ("a") 7 [3], .reenqueued ("a") 7 [3], .reenqueued ("a") 7 [3],
       .reenqueued ("a") 7 [3], .dropped (packTup ("a") 7 [3])]
    ∧ (failCycles (putThenDispatch disp0 ("a") 7 (.many [3]) ("w1")) ("a") ("w1") 3 5).1 =
        ⟨[], [], [], [(packBytes (packTup ("a") 7 [3]), 5)], []⟩
    ∧ pendingList (organizerStep
        (failCycles (putThenDispatch disp0 ("a") 7 (.many [3]) ("w1")) ("a") ("w1") 3 5).1
        ("a") 7 (.many [9])) ("a") = [9]
    ∧ successStep
        (failCycle (putThenDispatch disp0 ("a") 7 (.many [3]) ("w1")) ("a") ("w1") 3).1
        ("a") =
        ⟨[], [], [], [(packBytes (packTup ("a") 7 [3]), 1)], []⟩ := by
  decide

/-- C6: work put for a key that is active is appended to that key's stash and neither
    enters pending nor the work queue nor touches the active map, and a stash is flushed
    into pending - prepended before the newly arriving work, preserving submission
    order - only when the key is not active. -/
theorem C6_active_key_work_is_stashed :
    ∀ (s : DispState) (k : Key) (wm : Metrics) (w : Work),
      ((alookup s.active k).isSome = true →
          (organizerStep s k wm w).pending = s.pending
        ∧ (organizerStep s k wm w).workQueue = s.workQueue
        ∧ (organizerStep s k wm w).active = s.active
        ∧ stashedList (organizerStep s k wm w) k = stashedList s k ++ workToList w)
    ∧ (∀ swm sv, alookup s.active k = none → alookup s.stashed k = some (swm, sv) →
          pendingList (organizerStep s k wm w) k = pendingList s k ++ sv ++ workToList w
        ∧ alookup (organizerStep s k wm w).stashed k = none) := by
  intro s k wm w
  constructor
  · intro hact
    by_cases hdisc : (alookup s.stashed k).isNone ∧ workLen w = 0
    · have hstash : alookup s.stashed k = none := Option.isNone_iff_eq_none.mp hdisc.1
      have hwl : workToList w = [] := workToList_eq_nil w hdisc.2
      simp [organizerStep, hdisc, stashedList, hstash, hwl]
    · cases hcur : alookup s.stashed k with
      | none =>
        have hw : ¬ workLen w = 0 := by
          intro h0
          exact hdisc ⟨by simp [hcur], h0⟩
        simp [organizerStep, hdisc, hact, stashedList, hcur, hw, alookup_ainsert_self]
      | some pr =>
        simp [organizerStep, hdisc, hact, stashedList, hcur, alookup_ainsert_self]
  · intro swm sv hact hstash
    have hdisc : ¬ ((alookup s.stashed k).isNone ∧ workLen w = 0) := by
      simp [hstash]
    cases hpend : alookup s.pending k with
    | none =>
      constructor
      · simp [organizerStep, hdisc, hact, hstash, hpend, pendingList,
          alookup_ainsert_self]
      · simp [organizerStep, hdisc, hact, hstash, hpend, alookup_aerase_self]
    | some pp =>
      constructor
      · simp [organizerStep, hdisc, hact, hstash, hpend, pendingList,
          alookup_ainsert_self]
      · simp [organizerStep, hdisc, hact, hstash, hpend, alookup_aerase_self]

/-- witness for C6_active_key_work_is_stashed: both parts at concrete states - a state
    with key a active, and a state with a stash for an inactive key a. -/
theorem C6_active_key_work_is_stashed_witness :
    ((organizerStep ⟨[], [], [(("a"), ("w1"), packTup ("a") 0 [1])], [], []⟩
        ("a") 7 (.many [5])).pending =
      (⟨[], [], [(("a"), ("w1"), packTup ("a") 0 [1])], [], []⟩ : DispState).pending
    ∧ (organizerStep ⟨[], [], [(("a"), ("w1"), packTup ("a") 0 [1])], [], []⟩
        ("a") 7 (.many [5])).workQueue =
      (⟨[], [], [(("a"), ("w1"), packTup ("a") 0 [1])], [], []⟩ : DispState).workQueue
    ∧ (organizerStep ⟨[], [], [(("a"), ("w1"), packTup ("a") 0 [1])], [], []⟩
        ("a") 7 (.many [5])).active =
      (⟨[], [], [(("a"), ("w1"), packTup ("a") 0 [1])], [], []⟩ : DispState).active
    ∧ stashedList (organizerStep ⟨[], [], [(("a"), ("w1"), packTup ("a") 0 [1])], [], []⟩
        ("a") 7 (.many [5])) ("a") =
      stashedList (⟨[], [], [(("a"), ("w1"), packTup ("a") 0 [1])], [], []⟩ : DispState)
        ("a") ++ workToList (.many [5]))
    ∧ (pendingList (organizerStep ⟨[], [(("a"), (6, [2]))], [], [], []⟩
          ("a") 7 (.many [5])) ("a") =
        pendingList (⟨[], [(("a"), (6, [2]))], [], [], []⟩ : DispState) ("a")
          ++ [2] ++ workToList (.many [5])
      ∧ alookup (organizerStep ⟨[], [(("a"), (6, [2]))], [], [], []⟩
          ("a") 7 (.many [5])).stashed ("a") = none) :=
  ⟨(C6_active_key_work_is_stashed
      ⟨[], [], [(("a"), ("w1"), packTup ("a") 0 [1])], [], []⟩ ("a") 7 (.many [5])).1
      (by decide),
   (C6_active_key_work_is_stashed
      ⟨[], [(("a"), (6, [2]))], [], [], []⟩ ("a") 7 (.many [5])).2 6 [2]
      (by decide) (by decide)⟩

/-- C8: a put with an empty work list leaves the dispatcher state unchanged when the
    key has no stash, and when a stash exists for an inactive key it acts as a flush
    trigger moving the stashed work into pending and clearing the stash. -/
theorem C8_empty_work_flush :
    ∀ (s : DispState) (k : Key) (wm : Metrics),
      (alookup s.stashed k = none → organizerStep s k wm (.many []) = s)
    ∧ (∀ swm sv, alookup s.stashed k = some (swm, sv) → alookup s.active k = none →
          pendingList (organizerStep s k wm (.many [])) k = pendingList s k ++ sv
        ∧ alookup (organizerStep s k wm (.many [])).stashed k = none) := by
  intro s k wm
  constructor
  · intro hstash
    simp [organizerStep, hstash, workLen]
  · intro swm sv hstash hact
    have hdisc : ¬ ((alookup s.stashed k).isNone ∧ workLen (.many []) = 0) := by
      simp [hstash]
    cases hpend : alookup s.pending k with
    | none =>
      constructor
      · simp [organizerStep, hdisc, hact, hstash, hpend, pendingList, workToList,
          alookup_ainsert_self]
      · simp [organizerStep, hdisc, hact, hstash, hpend, alookup_aerase_self]
    | some pp =>
      constructor
      · simp [organizerStep, hdisc, hact, hstash, hpend, pendingList, workToList,
          alookup_ainsert_self]
      · simp [organizerStep, hdisc, hact, hstash, hpend, alookup_aerase_self]

/-- witness for C8_empty_work_flush: discarding at a stash-free state and flushing a
    stash of an inactive key. -/
theorem C8_empty_work_flush_witness :
    organizerStep disp0 ("a") 7 (.many []) = disp0
    ∧ (pendingList (organizerStep ⟨[], [(("a"), (6, [2, 4]))], [], [], []⟩
          ("a") 7 (.many [])) ("a") =
        pendingList (⟨[], [(("a"), (6, [2, 4]))], [], [], []⟩ : DispState) ("a") ++ [2, 4]
      ∧ alookup (organizerStep ⟨[], [(("a"), (6, [2, 4]))], [], [], []⟩
          ("a") 7 (.many [])).stashed ("a") = none) :=
  ⟨(C8_empty_work_flush disp0 ("a") 7).1 (by decide),
   (C8_empty_work_flush ⟨[], [(("a"), (6, [2, 4]))], [], [], []⟩ ("a") 7).2 6 [2, 4]
     (by decide) (by decide)⟩

/-- C9 (counterexample): a PythonFunction argument whose formal name is pv_callback and
    whose mapped value is a parameter name is bound to the callback closure, not to the
    substituted parameter value, refuting that every non-star parameter-valued argument
    is substituted over the selection. -/
theorem C9_pv_callback_counterexample :
    pythonArgs (fun _ => .int 0) (fun _ _ => .int 7)
        [("pv_callback")] [(("pv_callback"), .pname ("temp"))] 3 = [.cbClosure 3]
    ∧ PyArg.cbClosure 3 ≠
        .val ((fun (_ : String) (_ : SelArg) => Val.int 7) ("temp") (.sel 3)) := by
  constructor
  · decide
  · decide

/-- C9 (amended): in both evaluate loops an argument whose formal name ends in a star
    is bound (under the name with the star stripped) to the callback value at the
    literal -1 index; every other parameter-valued argument is substituted via the
    callback over the same selection, except a PythonFunction argument whose formal
    name is pv_callback, which is bound to a callback closure over the selection. -/
theorem C9_star_binds_last_element :
    ∀ (subEval : ℕ → Val) (cb : String → SelArg → Val) (argList : List String)
      (paramMap : List (String × ArgVal)) (sl : ℤ) (i : ℕ) (k p : String),
      argList.get? i = some k →
      (alookup paramMap k).getD (.pname k) = .pname p →
      ((endsWithStar k = true →
          (numexprBindings subEval cb argList paramMap sl).get? i =
            some (dropStar k, cb p .lastElem)
        ∧ (pythonArgs subEval cb argList paramMap sl).get? i =
            some (.val (cb p .lastElem)))
      ∧ (endsWithStar k = false → ¬ k = ("pv_callback") →
          (numexprBindings subEval cb argList paramMap sl).get? i =
            some (k, cb p (.sel sl))
        ∧ (pythonArgs subEval cb argList paramMap sl).get? i =
            some (.val (cb p (.sel sl))))
      ∧ (k = ("pv_callback") →
          (pythonArgs subEval cb argList paramMap sl).get? i =
            some (.cbClosure sl))) := by
  intro subEval cb argList paramMap sl i k p hget hmap
  have hmapA : (applyMapping argList paramMap).get? i = some (k, .pname p) := by
    rw [applyMapping, List.get?_map, hget]
    simp [hmap]
  refine ⟨?_, ?_, ?_⟩
  · intro hstar
    have hk : ¬ k = ("pv_callback") := by
      intro he
      rw [he] at hstar
      exact absurd hstar (by decide)
    constructor
    · rw [numexprBindings, List.get?_map, hmapA]
      simp [hstar]
    · rw [pythonArgs, List.get?_map, hmapA]
      simp [hstar, hk]
  · intro hstar hk
    constructor
    · rw [numexprBindings, List.get?_map, hmapA]
      simp [hstar]
    · rw [pythonArgs, List.get?_map, hmapA]
      simp [hstar, hk]
  · intro hk
    rw [pythonArgs, List.get?_map, hmapA]
    simp [hk]

/-- witness for C9_star_binds_last_element: a star argument, a plain argument and a
    pv_callback argument, each mapped to a parameter name. -/
theorem C9_star_binds_last_element_witness :
    ((numexprBindings (fun _ => .int 0) (fun _ _ => .int 7)
        [("t*")] [(("t*"), .pname ("temp"))] 3).get? 0 =
      some (dropStar ("t*"), (fun (_ : String) (_ : SelArg) => Val.int 7)
        ("temp") .lastElem)
    ∧ (pythonArgs (fun _ => .int 0) (fun _ _ => .int 7)
        [("t*")] [(("t*"), .pname ("temp"))] 3).get? 0 =
      some (.val ((fun (_ : String) (_ : SelArg) => Val.int 7) ("temp") .lastElem)))
    ∧ ((numexprBindings (fun _ => .int 0) (fun _ _ => .int 7)
        [("u")] [] 3).get? 0 =
      some (("u"), (fun (_ : String) (_ : SelArg) => Val.int 7) ("u") (.sel 3))
    ∧ (pythonArgs (fun _ => .int 0) (fun _ _ => .int 7)
        [("u")] [] 3).get? 0 =
      some (.val ((fun (_ : String) (_ : SelArg) => Val.int 7) ("u") (.sel 3))))
    ∧ (pythonArgs (fun _ => .int 0) (fun _ _ => .int 7)
        [("pv_callback")] [] 3).get? 0 = some (.cbClosure 3) :=
  ⟨(C9_star_binds_last_element (fun _ => .int 0) (fun _ _ => .int 7)
      [("t*")] [(("t*"), .pname ("temp"))] 3 0 ("t*") ("temp")
      (by decide) (by decide)).1 (by decide),
   (C9_star_binds_last_element (fun _ => .int 0) (fun _ _ => .int 7)
      [("u")] [] 3 0 ("u") ("u")
      (by decide) (by decide)).2.1 (by decide) (by decide),
   (C9_star_binds_last_element (fun _ => .int 0) (fun _ _ => .int 7)
      [("pv_callback")] [] 3 0 ("pv_callback") ("pv_callback")
      (by decide) (by decide)).2.2 (by decide)⟩

/-- C10: dataqc_spiketest and dataqc_stuckvaluetest reject every input with at most one
    element with the must-be-a-vector error, while the vector check itself accepts any
    array of more than one element regardless of its number of dimensions: a 2x2 matrix
    counts as a vector. -/
theorem C10_vector_check :
    (∀ (dat : List ℚ) (acc N L : ℚ), dat.length ≤ 1 →
        dataqc_spiketest dat acc N L = .error .mustBeVector)
    ∧ (∀ (x : List ℚ) (reso num : ℚ), x.length ≤ 1 →
        dataqc_stuckvaluetest x reso num = .error .mustBeVector)
    ∧ (∀ shape : List ℕ, npSize shape ≤ 1 → isvector shape = false)
    ∧ (∀ shape : List ℕ, 1 < npSize shape → isvector shape = true)
    ∧ isvector [2, 2] = true := by
  refine ⟨?_, ?_, ?_, ?_, by decide⟩
  · intro dat acc N L h
    have hlt : ¬ 1 < dat.length := by omega
    simp [dataqc_spiketest, hlt]
  · intro x reso num h
    have hlt : ¬ 1 < x.length := by omega
    simp [dataqc_stuckvaluetest, hlt]
  · intro shape h
    simp [isvector]
    omega
  · intro shape h
    simp [isvector]
    omega

/-- witness for C10_vector_check: the scalar-like one-element input and the empty
    input. -/
theorem C10_vector_check_witness :
    dataqc_spiketest [7] 1 5 5 = .error .mustBeVector
    ∧ dataqc_stuckvaluetest [] 1 10 = .error .mustBeVector
    ∧ isvector [] = false
    ∧ isvector [3] = true :=
  ⟨C10_vector_check.1 [7] 1 5 5 (by decide),
   C10_vector_check.2.1 [] 1 10 (by decide),
   C10_vector_check.2.2.1 [] (by decide),
   C10_vector_check.2.2.2.1 [3] (by decide)⟩

end CoverageModel
